import Mathlib

/-!
Verification of the modelme schema validation/coercion engine
(src/lib/modelme.js) via a shallow embedding in Lean 4.

JavaScript values are modelled by the inductive `JSValue`; machine floats
are modelled as rationals (NaN is represented as `none` where a conversion
can fail); thrown exceptions are modelled by `Except JSErr`. Definitions
follow the source file function by function; external platform builtins
(JSON.parse, Date.parse, number formatting) are modelled by simplified
executable stand-ins, as the spec treats them as external collaborators.
-/

set_option linter.unusedVariables false

namespace ModelMe

/-- A JavaScript runtime value, as used by the modelme engine.  `undef`
is the undefined value (an absent key reads as `undef`); `num` models a
finite JS number as a rational; `date` is a Date object identified by its
millisecond timestamp; `func` is an opaque function value identified by a
tag (the engine never calls stored functions); `arr` and `obj` are arrays
and plain objects. -/
inductive JSValue where
  | undef
  | null
  | bool (b : Bool)
  | num (q : Rat)
  | str (s : String)
  | date (millis : Int)
  | func (fid : Nat)
  | arr (elems : List JSValue)
  | obj (fields : List (String × JSValue))
deriving Repr

/-- A thrown JavaScript exception: a native TypeError, a thrown plain
string (the datetime coercion throws strings), or a ModelMeError (the
exception class of the module). -/
inductive JSErr where
  | typeError (msg : String)
  | thrownString (s : String)
  | modelMeError (msg : String)
deriving Repr, DecidableEq

/-- Entries of the errors list of a validation result: the message is a
string when a rule returned one, and the caught exception object itself
when field processing threw (validate pushes the raw exception as the
message). -/
inductive ErrMsg where
  | str (s : String)
  | exn (e : JSErr)
deriving Repr, DecidableEq

/-- Display of a JS number (simplified model of the Number toString
builtin: integers print without a fractional part). -/
def numToString (q : Rat) : String :=
  if q.den = 1 then toString q.num else toString q

mutual

/-- Model of the JS ToString conversion for the representable values
(array joins its elements with commas, plain objects display as
[object Object]). -/
def jsToString : JSValue → String
  | .undef => "undefined"
  | .null => "null"
  | .bool b => if b then "true" else "false"
  | .num q => numToString q
  | .str s => s
  | .date ms => "Date " ++ toString ms
  | .func _ => "function"
  | .arr l => String.intercalate "," (jsToStringList l)
  | .obj _ => "[object Object]"

/-- ToString of every element of a list of values. -/
def jsToStringList : List JSValue → List String
  | [] => []
  | v :: vs => jsToString v :: jsToStringList vs

end

/-- Model of the JS ToNumber conversion applied to a string (simplified:
blank strings convert to 0, decimal integer literals to their value, and
anything else to NaN, i.e. `none`). -/
def strToNumber (s : String) : Option Rat :=
  let t := s.trim
  if t = "" then some 0 else (t.toInt?).map (fun i => (i : Rat))

/-- Model of the JS ToNumber conversion used by the relational operators
in the min/max rules; `none` is NaN (every comparison with NaN is false). -/
def toNumber : JSValue → Option Rat
  | .num q => some q
  | .bool b => some (if b then 1 else 0)
  | .null => some 0
  | .undef => none
  | .str s => strToNumber s
  | .date ms => some (ms : Rat)
  | .arr l => strToNumber (jsToString (.arr l))
  | .obj _ => none
  | .func _ => none

/-- Reading the length property of a value: on null and undefined the
access itself throws a TypeError; strings and arrays have a numeric
length, functions have their arity (0 for the stored thunks), and other
values read length as undefined (`none`). -/
def lengthProp : JSValue → Except JSErr (Option Nat)
  | .null => .error (.typeError "Cannot read property length of null")
  | .undef => .error (.typeError "Cannot read property length of undefined")
  | .str s => .ok (some s.length)
  | .arr l => .ok (some l.length)
  | .func _ => .ok (some 0)
  | _ => .ok none

/-- The elementType option of an array field: a mode (simple or complex)
and the name of a field type or declared Type.  The engine stores this
option but never reads it. -/
structure ElementType where
  mode : String
  type : String
deriving Repr, DecidableEq

/-- Per-field options (typeOptions in the source).  `defaultValue` is
`undef` when not supplied, matching the typeof-undefined test the code
performs; numeric options model JS truthiness (0 and absent are falsy). -/
structure FieldOptions where
  defaultValue : JSValue := .undef
  allowNull : Bool := false
  allowUndefined : Bool := false
  minLength : Option Nat := none
  maxLength : Option Nat := none
  min : Option Rat := none
  max : Option Rat := none
  elementType : Option ElementType := none

/-- rules.maxLengthRule: when options.maxLength is truthy the rule reads
val.length (throwing on null/undefined) and reports when the length
exceeds the bound; an undefined length compares as false. -/
def maxLengthRule (val : JSValue) (opt : FieldOptions) : Except JSErr (Option String) :=
  match opt.maxLength with
  | none => .ok none
  | some m =>
    if m = 0 then .ok none
    else
      match lengthProp val with
      | .error e => .error e
      | .ok none => .ok none
      | .ok (some l) =>
        if m < l then
          .ok (some ("must not be greater than " ++ toString m ++ " characters"))
        else .ok none

/-- rules.minLengthRule: when options.minLength is truthy the rule reads
val.length (throwing on null/undefined) and reports when the length is
below the bound; an undefined length compares as false. -/
def minLengthRule (val : JSValue) (opt : FieldOptions) : Except JSErr (Option String) :=
  match opt.minLength with
  | none => .ok none
  | some m =>
    if m = 0 then .ok none
    else
      match lengthProp val with
      | .error e => .error e
      | .ok none => .ok none
      | .ok (some l) =>
        if l < m then
          .ok (some ("must be at least " ++ toString m ++ " characters"))
        else .ok none

/-- rules.nullRule: reports on a null value unless options.allowNull is
truthy. -/
def nullRule (val : JSValue) (opt : FieldOptions) : Except JSErr (Option String) :=
  match val with
  | .null => if opt.allowNull then .ok none else .ok (some "must not be null")
  | _ => .ok none

/-- rules.undefinedRule: reports on an undefined value unless
options.allowUndefined is truthy. -/
def undefinedRule (val : JSValue) (opt : FieldOptions) : Except JSErr (Option String) :=
  match val with
  | .undef => if opt.allowUndefined then .ok none else .ok (some "must be defined")
  | _ => .ok none

/-- rules.minRule: returns early on null/undefined; otherwise, when
options.min is truthy, compares the value numerically against the bound
(NaN comparisons are false). -/
def minRule (val : JSValue) (opt : FieldOptions) : Except JSErr (Option String) :=
  match val with
  | .null => .ok none
  | .undef => .ok none
  | v =>
    match opt.min with
    | none => .ok none
    | some m =>
      if m = 0 then .ok none
      else
        match toNumber v with
        | none => .ok none
        | some x =>
          if x < m then .ok (some ("value must be at least " ++ numToString m))
          else .ok none

/-- rules.maxRule: returns early on null/undefined; otherwise, when
options.max is truthy, compares the value numerically against the bound
(NaN comparisons are false). -/
def maxRule (val : JSValue) (opt : FieldOptions) : Except JSErr (Option String) :=
  match val with
  | .null => .ok none
  | .undef => .ok none
  | v =>
    match opt.max with
    | none => .ok none
    | some m =>
      if m = 0 then .ok none
      else
        match toNumber v with
        | none => .ok none
        | some x =>
          if m < x then .ok (some ("value must not be greater than " ++ numToString m))
          else .ok none

/-- rules.isStringRule: returns early on null/undefined, otherwise
requires a string value. -/
def isStringRule (val : JSValue) (opt : FieldOptions) : Except JSErr (Option String) :=
  match val with
  | .null => .ok none
  | .undef => .ok none
  | .str _ => .ok none
  | _ => .ok (some "value must be a string")

/-- rules.isIntRule: returns early on null/undefined, otherwise requires
a number with zero fractional part. -/
def isIntRule (val : JSValue) (opt : FieldOptions) : Except JSErr (Option String) :=
  match val with
  | .null => .ok none
  | .undef => .ok none
  | .num q =>
    if q.den = 1 then .ok none
    else .ok (some ("the number " ++ numToString q ++ " is not an integer"))
  | _ => .ok (some "value must be a number")

/-- rules.isNumberRule: returns early on null/undefined, otherwise
requires a number value. -/
def isNumberRule (val : JSValue) (opt : FieldOptions) : Except JSErr (Option String) :=
  match val with
  | .null => .ok none
  | .undef => .ok none
  | .num _ => .ok none
  | _ => .ok (some "value must be a number")

/-- rules.isArrayRule: returns early on null/undefined, otherwise
requires an array value. -/
def isArrayRule (val : JSValue) (opt : FieldOptions) : Except JSErr (Option String) :=
  match val with
  | .null => .ok none
  | .undef => .ok none
  | .arr _ => .ok none
  | _ => .ok (some "value is not an array")

/-- rules.isDateRule: returns early on null/undefined (the source uses a
loose equality val == null which covers both), otherwise requires a Date
value. -/
def isDateRule (val : JSValue) (opt : FieldOptions) : Except JSErr (Option String) :=
  match val with
  | .null => .ok none
  | .undef => .ok none
  | .date _ => .ok none
  | _ => .ok (some "value is not a date")

/-- A field type: a name, an ordered list of rules, and an optional
coercion transform. -/
structure FieldType where
  name : String
  rules : List (JSValue → FieldOptions → Except JSErr (Option String))
  coerce : Option (JSValue → Except JSErr JSValue)

/-- A field: a name, its field type, and its typeOptions (defaulted to
the empty options when the caller supplies none, as the Field constructor
does). -/
structure Field where
  name : String
  fieldType : FieldType
  typeOptions : FieldOptions

/-- Field.defaultCoerce: substitutes options.defaultValue only when the
incoming value is undefined and a defaultValue is defined; in every other
case the value passes through (in particular null does not trigger the
default).  The stored defaultValue is returned as it is, without calling
it when it is a function. -/
def defaultCoerce (f : Field) (val : JSValue) : JSValue :=
  match val, f.typeOptions.defaultValue with
  | .undef, .undef => .undef
  | .undef, dv => dv
  | v, _ => v

/-- Application of a field type coercion when one exists (Field.coerce
checks self.fieldType.coerce before calling it). -/
def applyTypeCoerce (ft : FieldType) (v : JSValue) : Except JSErr JSValue :=
  match ft.coerce with
  | some c => c v
  | none => .ok v

/-- Field.coerce: default substitution first, then the field type
coercion. -/
def fieldCoerce (f : Field) (val : JSValue) : Except JSErr JSValue :=
  applyTypeCoerce f.fieldType (defaultCoerce f val)

/-- The forEach loop of Field.validate: every rule runs in order against
the same value and options; a truthy (non-empty) returned message is
collected; a rule that throws aborts the loop with that exception. -/
def runRules (rs : List (JSValue → FieldOptions → Except JSErr (Option String)))
    (val : JSValue) (opt : FieldOptions) : Except JSErr (List String) :=
  match rs with
  | [] => .ok []
  | r :: rest =>
    match r val opt with
    | .error e => .error e
    | .ok res =>
      match runRules rest val opt with
      | .error e => .error e
      | .ok msgs =>
        match res with
        | none => .ok msgs
        | some msg => if msg = "" then .ok msgs else .ok (msg :: msgs)

/-- Field.validate: runs every rule of the field type against the value
and the field options, collecting all returned messages. -/
def fieldValidate (f : Field) (val : JSValue) : Except JSErr (List String) :=
  runRules f.fieldType.rules val f.typeOptions

/-- stringFieldType.coerce: null, undefined and strings pass through;
every other value is converted via its generic string representation. -/
def stringCoerce (val : JSValue) : Except JSErr JSValue :=
  match val with
  | .null => .ok .null
  | .undef => .ok .undef
  | .str s => .ok (.str s)
  | v => .ok (.str (jsToString v))

/-- arrayFieldType.coerce: null, undefined and non-arrays pass through;
an array is copied into a new array holding the same elements in order
(a shallow copy in the source; element references are shared). -/
def arrayCoerce (val : JSValue) : Except JSErr JSValue :=
  match val with
  | .arr l => .ok (.arr l)
  | v => .ok v

/-- intFieldType.coerce: identity. -/
def intCoerce (val : JSValue) : Except JSErr JSValue := .ok val

/-- numberFieldType.coerce: identity. -/
def numberCoerce (val : JSValue) : Except JSErr JSValue := .ok val

/-- Model of the external Date.parse builtin (simplified): recognizes
dash-separated all-numeric date strings and maps them injectively to a
millisecond timestamp; everything else is NaN (`none`). -/
def dateParse (s : String) : Option Int :=
  match (s.splitOn "-").map String.toNat? with
  | [some y, some m, some d] => some (((y * 372 + m * 31 + d : Nat) : Int) * 86400000)
  | _ => none

/-- datetimeFieldType.coerce: null passes through (the undefined test of
the source reads the hoisted variable before assignment and is therefore
always false, but an undefined value still passes through via the final
return); a string is parsed, throwing a plain string error when the parse
yields NaN; every other value passes through. -/
def datetimeCoerce (val : JSValue) : Except JSErr JSValue :=
  match val with
  | .null => .ok .null
  | .str s =>
    match dateParse s with
    | some millis => .ok (.date millis)
    | none => .error (.thrownString ("not a valid date string: " ++ s))
  | v => .ok v

/-- The built-in string field type. -/
def stringFieldType : FieldType :=
  ⟨"string", [maxLengthRule, minLengthRule, nullRule, undefinedRule, isStringRule],
    some stringCoerce⟩

/-- The built-in array field type. -/
def arrayFieldType : FieldType :=
  ⟨"array", [maxLengthRule, minLengthRule, nullRule, undefinedRule, isArrayRule],
    some arrayCoerce⟩

/-- The built-in int field type. -/
def intFieldType : FieldType :=
  ⟨"int", [maxRule, minRule, nullRule, undefinedRule, isIntRule], some intCoerce⟩

/-- The number field type (definable but not auto-registered). -/
def numberFieldType : FieldType :=
  ⟨"number", [maxRule, minRule, nullRule, undefinedRule, isNumberRule], some numberCoerce⟩

/-- The built-in datetime field type. -/
def datetimeFieldType : FieldType :=
  ⟨"datetime", [maxRule, minRule, nullRule, undefinedRule, isDateRule], some datetimeCoerce⟩

/-- A declared data type (Type in the source; renamed because Type is a
Lean keyword): a name and its fields in declaration order. -/
structure MType where
  name : String
  fields : List (String × Field)

/-- A model: the declared types, keyed by name in declaration order (the
field type registry plays no role in validation and is omitted). -/
structure Model where
  types : List (String × MType)

/-- One entry of the field summary: the input value (undefined when the
key is absent from the input) and the declared field (none when the name
is not declared on the type). -/
structure FieldInfo where
  value : JSValue
  field : Option Field

/-- The for-in enumeration of the own enumerable keys of a value: object
keys in insertion order, array indices as strings, nothing for every
other value (in particular for-in over null iterates nothing). -/
def jsEnumerate : JSValue → List (String × JSValue)
  | .obj l => l
  | .arr l => l.enum.map (fun p => (toString p.1, p.2))
  | _ => []

/-- Setting the field component of the summary entry with the given name
(the summary is keyed; the first matching entry is updated). -/
def setField (name : String) (f : Field) :
    List (String × FieldInfo) → List (String × FieldInfo)
  | [] => []
  | (n, info) :: rest =>
    if n = name then (n, ⟨info.value, some f⟩) :: rest
    else (n, info) :: setField name f rest

/-- getFieldSummary: every key of the input contributes an entry with its
value; then every declared field either annotates the existing entry or
appends a new entry with an undefined value.  Reading type.fields throws
a TypeError when the type is undefined (which validate passes when the
type name is not declared). -/
def getFieldSummary (obj : JSValue) (oty : Option MType) :
    Except JSErr (List (String × FieldInfo)) :=
  let base := (jsEnumerate obj).map (fun p => (p.1, FieldInfo.mk p.2 none))
  match oty with
  | none => .error (.typeError "Cannot read property fields of undefined")
  | some ty =>
    .ok (ty.fields.foldl
      (fun acc p =>
        if (acc.lookup p.1).isSome then setField p.1 p.2 acc
        else acc ++ [(p.1, FieldInfo.mk .undef (some p.2))])
      base)

/-- Model of the external JSON.parse builtin (simplified): recognizes a
few literal texts and throws on everything else. -/
def jsonParse (s : String) : Except JSErr JSValue :=
  if s = "null" then .ok .null
  else if s = "true" then .ok (.bool true)
  else if s = "false" then .ok (.bool false)
  else
    match s.toInt? with
    | some i => .ok (.num (i : Rat))
    | none =>
      if s = "\x7b\x7d" then .ok (.obj [])
      else .error (.thrownString ("Unexpected token in JSON: " ++ s))

/-- The input normalization of validate: a string is parsed as JSON;
values whose typeof is not object (undefined, booleans, numbers,
functions) are rejected with a ModelMeError; null, objects, arrays and
dates all have typeof object and pass through. -/
def normalizeData (data : JSValue) : Except JSErr JSValue :=
  match data with
  | .str s => jsonParse s
  | .null => .ok .null
  | .obj l => .ok (.obj l)
  | .arr l => .ok (.arr l)
  | .date ms => .ok (.date ms)
  | _ => .error (.modelMeError
      "Value passed to data param of validate() function must be an object or a json string")

/-- The per-field loop of validate: for every summary entry with a
declared field, coerce then validate inside a try; rule messages are
collected as string errors and the coerced value is recorded in the
result object (even when rule errors were collected); a thrown exception
becomes a single error carrying the exception itself and the field is
omitted from the result. -/
def processSummary (summary : List (String × FieldInfo)) :
    List (String × ErrMsg) × List (String × JSValue) :=
  summary.foldl
    (fun acc p =>
      match p.2.field with
      | none => acc
      | some f =>
        match fieldCoerce f p.2.value with
        | .error e => (acc.1 ++ [(p.1, .exn e)], acc.2)
        | .ok coerced =>
          match fieldValidate f coerced with
          | .error e => (acc.1 ++ [(p.1, .exn e)], acc.2)
          | .ok msgs =>
            (acc.1 ++ msgs.map (fun msg => (p.1, ErrMsg.str msg)),
             acc.2 ++ [(p.1, coerced)]))
    ([], [])

/-- The aggregate result of validate: entity holds the constructed
object, or null as soon as the errors list is non-empty. -/
structure ValidationResult where
  entity : Option (List (String × JSValue))
  errors : List (String × ErrMsg)
deriving Repr

/-- The final result shaping of validate (the ternary on line 76 of the
source). -/
def finishResult (errors : List (String × ErrMsg))
    (result : List (String × JSValue)) : ValidationResult :=
  ⟨if errors.length > 0 then none else some result, errors⟩

/-- The key whose membership the buggy existence guard of validate
actually tests: the source writes a negation applied to typeName before
the in operator, so the boolean (true exactly when typeName is the empty
string) is converted to a string and looked up among the type names. -/
def guardKey (typeName : String) : String :=
  if typeName = "" then "true" else "false"

/-- Model.validate: the (mis-parenthesized) existence guard, input
normalization, field summary construction (which throws a TypeError when
the type name is not declared), the per-field coerce/validate loop, and
result shaping. -/
def validate (m : Model) (data : JSValue) (typeName : String) :
    Except JSErr ValidationResult :=
  if (m.types.lookup (guardKey typeName)).isSome then
    .error (.modelMeError ("The type " ++ typeName ++ " does not exist"))
  else
    match normalizeData data with
    | .error e => .error e
    | .ok obj =>
      match getFieldSummary obj (m.types.lookup typeName) with
      | .error e => .error e
      | .ok summary =>
        .ok (finishResult (processSummary summary).1 (processSummary summary).2)

/-! Concrete schemas used to evaluate the engine on specific inputs. -/

/-- A plain string field with empty options. -/
def nameField : Field := ⟨"name", stringFieldType, {}⟩

/-- An array field declared with a complex element type naming the
Person type, as in the recursive model of the repository tests. -/
def friendsField : Field :=
  ⟨"friends", arrayFieldType, { elementType := some ⟨"complex", "Person"⟩ }⟩

/-- A Person type with a string name and a complex-element friends
array. -/
def recPersonType : MType := ⟨"Person", [("name", nameField), ("friends", friendsField)]⟩

/-- A model declaring only the recursive Person type. -/
def recModel : Model := ⟨[("Person", recPersonType)]⟩

/-- A friends element that is invalid as a Person: its name is null. -/
def badFriend : JSValue := .obj [("name", .null), ("friends", .arr [])]

/-- An input whose only friends element is invalid as a Person. -/
def recInput : JSValue := .obj [("name", .str "Graeme"), ("friends", .arr [badFriend])]

/-- A model with a single Person type that has no fields. -/
def m2w : Model := ⟨[("Person", ⟨"Person", []⟩)]⟩

/-- A datetime field whose defaultValue is a 0-argument function value
(a generator, as declared in the repository test models). -/
def createdField : Field := ⟨"created", datetimeFieldType, { defaultValue := .func 0 }⟩

/-- A model with a single type T holding only the generator-defaulted
datetime field. -/
def genModel : Model := ⟨[("T", ⟨"T", [("created", createdField)]⟩)]⟩

/-- A model declaring a Person type with one string field. -/
def m4 : Model := ⟨[("Person", ⟨"Person", [("name", nameField)]⟩)]⟩

/-- A model that also declares a type literally named false (a legal
nonempty type name), which is exactly the key the mis-parenthesized
existence guard of validate tests. -/
def m4b : Model := ⟨[("false", ⟨"false", []⟩), ("Person", ⟨"Person", [("name", nameField)]⟩)]⟩

/-- A nullable string field that also carries a maxLength bound. -/
def f7 : Field := ⟨"name", stringFieldType, { allowNull := true, maxLength := some 5 }⟩

/-- A string field with empty options (allowNull defaulted to false). -/
def f7plain : Field := ⟨"name", stringFieldType, {}⟩

/-- A nullable string field with no length bounds. -/
def f7allow : Field := ⟨"name", stringFieldType, { allowNull := true }⟩

/-- A Person type with a single plain string field, for the null-root
witness. -/
def personType9 : MType := ⟨"Person", [("name", nameField)]⟩

/-- A model declaring only personType9. -/
def m9 : Model := ⟨[("Person", personType9)]⟩

/-- Idempotence of the coercion of a field on a value: coercing the
coerced value changes nothing. -/
def coerceIdem (f : Field) (v : JSValue) : Prop :=
  (fieldCoerce f v).bind (fieldCoerce f) = fieldCoerce f v

/-! Helper lemmas. -/

/-- The entity of a shaped result is null exactly when the errors list is
non-empty, by the ternary that builds it. -/
theorem finishResult_entity_iff (es : List (String × ErrMsg)) (res : List (String × JSValue)) :
    (finishResult es res).entity = none ↔ (finishResult es res).errors ≠ [] := by
  unfold finishResult
  rcases es with _ | ⟨e, es⟩
  · simp
  · simp

/-- Lookup misses an appended list when it misses both halves. -/
theorem lookup_append_none {β : Type} (k : String) (l1 l2 : List (String × β))
    (h1 : l1.lookup k = none) (h2 : l2.lookup k = none) :
    (l1 ++ l2).lookup k = none := by
  induction l1 with
  | nil => simpa using h2
  | cons p rest ih =>
    rcases p with ⟨n, v⟩
    by_cases hk : k = n
    · subst hk
      simp [List.lookup] at h1
    · have hb : (k == n) = false := beq_eq_false_iff_ne.mpr hk
      simp only [List.lookup, hb, List.cons_append] at h1 ⊢
      exact ih h1

/-- The field-summary fold of getFieldSummary appends one fresh
undefined-valued entry per declared field when no declared name is
already present in the accumulator and the declared names are distinct. -/
theorem summaryFoldAppends (fs : List (String × Field)) (acc : List (String × FieldInfo))
    (hmiss : ∀ p ∈ fs, acc.lookup p.1 = none)
    (hnd : (fs.map Prod.fst).Nodup) :
    fs.foldl
      (fun acc p =>
        if (acc.lookup p.1).isSome then setField p.1 p.2 acc
        else acc ++ [(p.1, FieldInfo.mk .undef (some p.2))])
      acc
    = acc ++ fs.map (fun p => (p.1, FieldInfo.mk .undef (some p.2))) := by
  induction fs generalizing acc with
  | nil => simp
  | cons p rest ih =>
    rcases p with ⟨n, f⟩
    have hn : acc.lookup n = none := hmiss (n, f) (List.mem_cons_self _ _)
    have hnd2 : (rest.map Prod.fst).Nodup := (List.nodup_cons.mp hnd).2
    have hnotin : n ∉ rest.map Prod.fst := (List.nodup_cons.mp hnd).1
    simp only [List.foldl_cons, hn, Option.isSome_none, Bool.false_eq_true, if_false]
    rw [ih (acc ++ [(n, FieldInfo.mk .undef (some f))]) ?_ hnd2]
    · simp
    · intro q hq
      refine lookup_append_none q.1 acc _ (hmiss q (List.mem_cons_of_mem _ hq)) ?_
      have hqn : q.1 ≠ n := by
        intro hEq
        exact hnotin (hEq ▸ List.mem_map_of_mem Prod.fst hq)
      have hb : (q.1 == n) = false := beq_eq_false_iff_ne.mpr hqn
      simp [List.lookup, hb]

/-! The claims. -/

/-- C1: the claim states that validate recursively checks each element of
an array field whose elementType has complex mode against the named Type
and lifts nested errors with an indexed path.  The engine does neither:
on a model whose friends field is a complex-element Person array and an
input whose only element has a null name, validate reports no error at
all and copies the invalid element into the entity untouched, instead of
reporting a friends[0].name error. -/
theorem complexArrayElementsNotRecursivelyValidated :
    validate recModel recInput "Person" =
      .ok ⟨some [("name", .str "Graeme"), ("friends", .arr [badFriend])], []⟩ := rfl

/-- C2: whenever validate returns (rather than throwing), the entity is
null exactly when the errors list is non-empty. -/
theorem entityNullIffErrorsNonempty (m : Model) (data : JSValue) (t : String)
    (r : ValidationResult) (h : validate m data t = .ok r) :
    r.entity = none ↔ r.errors ≠ [] := by
  unfold validate at h
  split at h
  · exact Except.noConfusion h
  · split at h
    · exact Except.noConfusion h
    · split at h
      · exact Except.noConfusion h
      · injection h with h
        subst h
        exact finishResult_entity_iff _ _

/-- Witness for C2 at a concrete call: the one-type model with no fields
accepts the empty object. -/
theorem entityNullIffErrorsNonemptyWitness :
    (ValidationResult.mk (some []) []).entity = none ↔
      (ValidationResult.mk (some []) []).errors ≠ [] :=
  entityNullIffErrorsNonempty m2w (.obj []) "Person" ⟨some [], []⟩ rfl

/-- C3: the claim states that a callable defaultValue is evaluated as a
0-argument call and its result used.  The code substitutes the stored
function value itself without calling it: coercing an absent value on
the generator-defaulted datetime field yields the function object, and a
whole-model validate of the empty object consequently reports value is
not a date instead of populating the field with a generated date. -/
theorem callableDefaultValueNotInvoked :
    fieldCoerce createdField .undef = .ok (.func 0) ∧
    validate genModel (.obj []) "T" =
      .ok ⟨none, [("created", .str "value is not a date")]⟩ :=
  ⟨rfl, rfl⟩

/-- C4: the claim states that an undeclared type name makes validate
throw the UnknownTypeError (a ModelMeError).  Because the existence
guard negates the type name before the membership test, it never fires
for an ordinary name: validate instead crashes with a native TypeError
when getFieldSummary reads the fields of the undefined type; and a model
that merely declares a type named false throws the UnknownTypeError on
every call, even for a declared name. -/
theorem unknownTypeNameThrowsTypeError :
    validate m4 (.obj []) "Nope" =
      .error (.typeError "Cannot read property fields of undefined") ∧
    validate m4b (.obj []) "Person" =
      .error (.modelMeError "The type Person does not exist") :=
  ⟨rfl, rfl⟩

/-- C5: the claim states that every bound/format rule returns no error
and does not fail on null or absent values.  The two length rules read
val.length before any null/absent guard, so with a length bound set they
throw a TypeError on null and on undefined; the remaining seven rules do
return no error on null and absent values for every options mapping. -/
theorem lengthRulesThrowOnNullOrAbsent :
    maxLengthRule .null { maxLength := some 5 } =
      .error (.typeError "Cannot read property length of null") ∧
    minLengthRule .undef { minLength := some 1 } =
      .error (.typeError "Cannot read property length of undefined") ∧
    (∀ opt : FieldOptions,
      minRule .null opt = .ok none ∧ minRule .undef opt = .ok none ∧
      maxRule .null opt = .ok none ∧ maxRule .undef opt = .ok none ∧
      isStringRule .null opt = .ok none ∧ isStringRule .undef opt = .ok none ∧
      isIntRule .null opt = .ok none ∧ isIntRule .undef opt = .ok none ∧
      isNumberRule .null opt = .ok none ∧ isNumberRule .undef opt = .ok none ∧
      isArrayRule .null opt = .ok none ∧ isArrayRule .undef opt = .ok none ∧
      isDateRule .null opt = .ok none ∧ isDateRule .undef opt = .ok none) :=
  ⟨rfl, rfl, fun opt =>
    ⟨rfl, rfl, rfl, rfl, rfl, rfl, rfl, rfl, rfl, rfl, rfl, rfl, rfl, rfl⟩⟩

/-- C7: the claim states that with allowNull set, validating null yields
zero errors regardless of other options.  With empty options null indeed
yields exactly the must-not-be-null error, and with allowNull true and
no length bound it yields zero errors; but with allowNull true and
maxLength 5 the maxLengthRule (which runs first) throws a TypeError on
null, so Field.validate fails instead of returning zero errors. -/
theorem allowNullWithLengthBoundThrows :
    fieldValidate f7plain .null = .ok ["must not be null"] ∧
    fieldValidate f7allow .null = .ok [] ∧
    fieldValidate f7 .null = .error (.typeError "Cannot read property length of null") :=
  ⟨rfl, rfl, rfl⟩

/-- C8: coercion of the string, int and datetime field types is
idempotent on values of the correct shape (a string, a number, a Date),
for every options mapping on the field: coercion passes such values
through unchanged, so coercing twice equals coercing once. -/
theorem coerceIdempotentOnCorrectShapes (opt : FieldOptions) (s : String) (q : Rat) (ms : Int) :
    coerceIdem ⟨"f", stringFieldType, opt⟩ (.str s) ∧
    coerceIdem ⟨"f", intFieldType, opt⟩ (.num q) ∧
    coerceIdem ⟨"f", datetimeFieldType, opt⟩ (.date ms) :=
  ⟨rfl, rfl, rfl⟩

/-- C9: a null root input is not rejected by the input normalization
(typeof null is object) and is processed exactly as an empty object
would be: validate gives identical results on null and on the empty
object for every model and type name; the field summary of a null root
is one undefined-valued entry per declared field; and for a declared
type name (in a model not tripping the mis-parenthesized guard) validate
returns a result instead of throwing. -/
theorem nullRootProcessedAsEmptyObject (m : Model) (t : String) (ty : MType) :
    validate m .null t = validate m (.obj []) t ∧
    ((ty.fields.map Prod.fst).Nodup →
      getFieldSummary .null (some ty) =
        .ok (ty.fields.map (fun p => (p.1, FieldInfo.mk .undef (some p.2))))) ∧
    (m.types.lookup (guardKey t) = none → m.types.lookup t = some ty →
      ∃ r, validate m .null t = .ok r) := by
  refine ⟨rfl, ?_, ?_⟩
  · intro hnd
    unfold getFieldSummary
    simp only [jsEnumerate, List.map_nil]
    rw [summaryFoldAppends ty.fields [] (fun p _ => rfl) hnd]
    simp
  · intro hg hlook
    unfold validate
    rw [hg]
    simp only [Option.isSome_none, Bool.false_eq_true, if_false, normalizeData]
    rw [hlook]
    unfold getFieldSummary
    exact ⟨_, rfl⟩

/-- Witness for C9 at a concrete model with one declared field. -/
theorem nullRootProcessedAsEmptyObjectWitness :
    validate m9 .null "Person" = validate m9 (.obj []) "Person" ∧
    getFieldSummary .null (some personType9) =
      .ok (personType9.fields.map (fun p => (p.1, FieldInfo.mk .undef (some p.2)))) ∧
    (∃ r, validate m9 .null "Person" = .ok r) := by
  obtain ⟨h1, h2, h3⟩ := nullRootProcessedAsEmptyObject m9 "Person" personType9
  exact ⟨h1, h2 (by simp [personType9]), h3 rfl rfl⟩

/-- C10: default substitution is triggered only by an undefined value,
never by null: on every field that does define a defaultValue, coercing
null leaves the default untouched and hands null to the field type
coercion. -/
theorem nullDoesNotTriggerDefault (nm : String) (ft : FieldType) (opt : FieldOptions)
    (h : opt.defaultValue ≠ .undef) :
    defaultCoerce ⟨nm, ft, opt⟩ .null = .null ∧
    fieldCoerce ⟨nm, ft, opt⟩ .null = applyTypeCoerce ft .null :=
  ⟨rfl, rfl⟩

/-- Witness for C10 on a string field whose default is the dash string
used by the repository tests. -/
theorem nullDoesNotTriggerDefaultWitness :
    defaultCoerce ⟨"name", stringFieldType, { defaultValue := .str "-" }⟩ .null = .null ∧
    fieldCoerce ⟨"name", stringFieldType, { defaultValue := .str "-" }⟩ .null =
      applyTypeCoerce stringFieldType .null :=
  nullDoesNotTriggerDefault "name" stringFieldType { defaultValue := .str "-" }
    (fun h => JSValue.noConfusion h)

end ModelMe
